import Mathlib

/-!
Shallow embedding of the koordinator `resmanager` module
(`pkg/koordlet/resmanager/resmanager.go`): the NodeSLO shared
desired-state store, the feature-gate check `isFeatureDisabled`, the
readiness gate `hasSynced`, and the pod-eviction pipeline
(`evictPodsIfNotEvicted` / `evictPodIfNotEvicted` / `evictPod` /
`killContainers`).

Pure data is translated field-for-field from
`apis/slo/v1alpha1/nodeslo_types.go`; Go pointers become `Option`,
`*int64` becomes `Option Int`, `*bool` becomes `Option Bool`.  Side
effects of the eviction pipeline (API calls, node events, metrics) are
made explicit as an `Effects` record; the expiring dedup cache
`r.podsEvicted` is modelled by its set of live keys (a `List String`),
since no claim here depends on the TTL clock.  External collaborators
that live outside this module (the kube eviction API, the container
runtime registry, the merge helpers of the `util` package) are passed
in as explicit environment records, so every theorem quantifies over
their behavior.
-/

/-! ## Data model: `apis/slo/v1alpha1/nodeslo_types.go` -/

/-- `MemoryQoS` tuning parameters; every field is an optional `*int64`. -/
structure MemoryQoS where
  MinLimitPercent : Option Int
  LowLimitPercent : Option Int
  ThrottlingPercent : Option Int
  WmarkRatio : Option Int
  WmarkScalePermill : Option Int
  WmarkMinAdj : Option Int
  PriorityEnable : Option Int
  Priority : Option Int
  OomKillGroup : Option Int
deriving DecidableEq, Repr

/-- `MemoryQoSCfg`: node-level memory QoS config with an enable flag. -/
structure MemoryQoSCfg where
  Enable : Option Bool
  memoryQoS : MemoryQoS
deriving DecidableEq, Repr

/-- `ResctrlQoS` cache/bandwidth partition parameters. -/
structure ResctrlQoS where
  CATRangeStartPercent : Option Int
  CATRangeEndPercent : Option Int
  MBAPercent : Option Int
deriving DecidableEq, Repr

/-- `ResctrlQoSCfg`: node-level resctrl QoS config with an enable flag. -/
structure ResctrlQoSCfg where
  Enable : Option Bool
  resctrlQoS : ResctrlQoS
deriving DecidableEq, Repr

/-- `ResourceQoS`: per-class pair of optional sub-policies. -/
structure ResourceQoS where
  MemoryQoS : Option MemoryQoSCfg
  ResctrlQoS : Option ResctrlQoSCfg
deriving DecidableEq, Repr

/-- `ResourceQoSStrategy`: one optional `ResourceQoS` block per QoS class. -/
structure ResourceQoSStrategy where
  LSR : Option ResourceQoS
  LS : Option ResourceQoS
  BE : Option ResourceQoS
  System : Option ResourceQoS
  CgroupRoot : Option ResourceQoS
deriving DecidableEq, Repr

/-- `CPUSuppressPolicy` is a Go string type (`"cpuset"` / `"cfsQuota"`). -/
abbrev CPUSuppressPolicy := String

/-- `ResourceThresholdStrategy`: the BE CPU/memory threshold block. -/
structure ResourceThresholdStrategy where
  Enable : Option Bool
  CPUSuppressThresholdPercent : Option Int
  CPUSuppressPolicy : CPUSuppressPolicy
  MemoryEvictThresholdPercent : Option Int
  MemoryEvictLowerPercent : Option Int
deriving DecidableEq, Repr

/-- `CPUBurstPolicy` is a Go string type. -/
abbrev CPUBurstPolicy := String

/-- `CPUBurstConfig`. -/
structure CPUBurstConfig where
  Policy : CPUBurstPolicy
  CPUBurstPercent : Option Int
  CFSQuotaBurstPercent : Option Int
  CFSQuotaBurstPeriodSeconds : Option Int
deriving DecidableEq, Repr

/-- `CPUBurstStrategy`: inline `CPUBurstConfig` plus the share-pool threshold. -/
structure CPUBurstStrategy where
  cpuBurstConfig : CPUBurstConfig
  SharePoolThresholdPercent : Option Int
deriving DecidableEq, Repr

/-- `NodeSLOSpec`: three optional top-level strategy blocks. -/
structure NodeSLOSpec where
  ResourceUsedThresholdWithBE : Option ResourceThresholdStrategy
  ResourceQoSStrategy : Option ResourceQoSStrategy
  CPUBurstStrategy : Option CPUBurstStrategy
deriving DecidableEq, Repr

/-- The Go zero value `NodeSLOSpec{}`: all three pointers nil. -/
def emptyNodeSLOSpec : NodeSLOSpec :=
  { ResourceUsedThresholdWithBE := none
    ResourceQoSStrategy := none
    CPUBurstStrategy := none }

/-- `metav1.TypeMeta` identity fields of the watched object. -/
structure TypeMeta where
  Kind : String
  APIVersion : String
deriving DecidableEq, Repr

/-- The `metav1.ObjectMeta` identity fields relevant to the store. -/
structure ObjectMeta where
  Name : String
  Namespace : String
  UID : String
  ResourceVersion : String
deriving DecidableEq, Repr

/-- `NodeSLOStatus` has no fields in this version of the API. -/
structure NodeSLOStatus where
deriving DecidableEq, Repr

/-- `NodeSLO`: the watched desired-state object. -/
structure NodeSLO where
  typeMeta : TypeMeta
  objectMeta : ObjectMeta
  Spec : NodeSLOSpec
  status : NodeSLOStatus
deriving DecidableEq, Repr

/-! ## Features (`pkg/features`, as referenced by `resmanager.go`) -/

/-- The feature gates that `resmanager.go` mentions. -/
inductive Feature where
  | BECPUSuppress
  | BEMemoryEvict
  | BECgroupReconcile
  | CgroupReconcile
  | CPUBurst
  | RdtResctrl
deriving DecidableEq, Repr

/-! ## The resmanager state

Only the fields that the verified operations read or write are kept:
the stored `nodeSLO` pointer (nil at process start) and the expiring
dedup cache `podsEvicted`, modelled by its list of currently live keys. -/

structure Resmanager where
  nodeSLO : Option NodeSLO
  podsEvicted : List String
deriving DecidableEq, Repr

/-! ## Shared desired-state store operations

The merge helpers `mergeSLOSpecResourceUsedThresholdWithBE`,
`mergeSLOSpecResourceQoSStrategy`, `mergeNoneResourceQoSIfDisabled`,
`mergeSLOSpecCPUBurstStrategy` and `util.DefaultNodeSLOSpecConfig` are
defined in other files of the repository; the store operations here are
parametric in them (a `MergeEnv`), so every theorem below holds for any
behavior of those helpers.  `mergeNoneResourceQoSIfDisabled` mutates a
(necessarily non-nil) struct in place in Go, hence it is a total
function on `ResourceQoSStrategy` applied under `Option.map`: the Go
`!= nil` test that follows it observes the original pointer, whose
nilness the in-place mutation cannot change. -/

structure MergeEnv where
  defaultConfig : NodeSLOSpec
  mergeSLOSpecResourceUsedThresholdWithBE :
    Option ResourceThresholdStrategy → Option ResourceThresholdStrategy →
      Option ResourceThresholdStrategy
  mergeSLOSpecResourceQoSStrategy :
    Option ResourceQoSStrategy → Option ResourceQoSStrategy → Option ResourceQoSStrategy
  mergeNoneResourceQoSIfDisabled : ResourceQoSStrategy → ResourceQoSStrategy
  mergeSLOSpecCPUBurstStrategy :
    Option CPUBurstStrategy → Option CPUBurstStrategy → Option CPUBurstStrategy

/-- The body of `mergeNodeSLOSpec` acting on the stored spec: each of
the three top-level blocks is merged with the default config, and the
stored field is overwritten only when the merged result is non-nil. -/
def mergeSpecFields (env : MergeEnv) (stored incoming : NodeSLOSpec) : NodeSLOSpec :=
  let m1 := env.mergeSLOSpecResourceUsedThresholdWithBE
    env.defaultConfig.ResourceUsedThresholdWithBE incoming.ResourceUsedThresholdWithBE
  let s1 := match m1 with
    | some v => { stored with ResourceUsedThresholdWithBE := some v }
    | none => stored
  let m2 := (env.mergeSLOSpecResourceQoSStrategy
    env.defaultConfig.ResourceQoSStrategy incoming.ResourceQoSStrategy).map
      env.mergeNoneResourceQoSIfDisabled
  let s2 := match m2 with
    | some v => { s1 with ResourceQoSStrategy := some v }
    | none => s1
  let m3 := env.mergeSLOSpecCPUBurstStrategy
    env.defaultConfig.CPUBurstStrategy incoming.CPUBurstStrategy
  match m3 with
  | some v => { s2 with CPUBurstStrategy := some v }
  | none => s2

/-- `(r *resmanager) mergeNodeSLOSpec(nodeSLO)`: a no-op (with an error
log) when either the stored or the incoming NodeSLO is nil; otherwise
rewrites only the `Spec` of the stored object. -/
def mergeNodeSLOSpec (env : MergeEnv) (stored : Option NodeSLO)
    (incoming : Option NodeSLO) : Option NodeSLO :=
  match stored, incoming with
  | some st, some inc => some { st with Spec := mergeSpecFields env st.Spec inc.Spec }
  | _, _ => stored

/-- `(r *resmanager) createNodeSLO(nodeSLO)`: deep-copies the incoming
object into the store, then merges its spec with the default config. -/
def createNodeSLO (env : MergeEnv) (r : Resmanager) (nodeSLO : NodeSLO) : Resmanager :=
  { r with nodeSLO := mergeNodeSLOSpec env (some nodeSLO) (some nodeSLO) }

/-- `(r *resmanager) updateNodeSLOSpec(nodeSLO)`: overwrites only
`r.nodeSLO.Spec` with the incoming spec and then merges with the
default config.  The Go statement `r.nodeSLO.Spec = nodeSLO.Spec`
dereferences `r.nodeSLO` unconditionally, so when the store is still
nil the method panics: that path is `none` here. -/
def updateNodeSLOSpec (env : MergeEnv) (r : Resmanager)
    (nodeSLO : NodeSLO) : Option Resmanager :=
  match r.nodeSLO with
  | none => none
  | some st =>
      let st1 := { st with Spec := nodeSLO.Spec }
      some { r with nodeSLO := mergeNodeSLOSpec env (some st1) (some nodeSLO) }

/-- `(r *resmanager) hasSynced()`:
`r.nodeSLO != nil && r.nodeSLO.Spec.ResourceUsedThresholdWithBE != nil`. -/
def hasSynced (r : Resmanager) : Bool :=
  match r.nodeSLO with
  | none => false
  | some n => n.Spec.ResourceUsedThresholdWithBE.isSome

/-! ## `isFeatureDisabled`

The Go function returns `(bool, error)`; the second component below is
`true` exactly when the returned error is non-nil. -/

/-- `isFeatureDisabled(nodeSLO, feature)` translated clause by clause
from the source. -/
def isFeatureDisabled (nodeSLO : Option NodeSLO) (feature : Feature) : Bool × Bool :=
  match nodeSLO with
  | none => (true, true)
  | some n =>
      if n.Spec = emptyNodeSLOSpec then (true, true)
      else
        match feature with
        | .BECPUSuppress | .BEMemoryEvict =>
            match n.Spec.ResourceUsedThresholdWithBE with
            | none => (true, true)
            | some t =>
                match t.Enable with
                | none => (true, true)
                | some e => (!e, false)
        | _ => (true, true)

/-- Modelled from the spec (claim side of the refinement for
`isFeatureDisabled`): the feature configuration is determinable exactly
when the feature is `BECPUSuppress` or `BEMemoryEvict` and the stored
threshold block carries a non-nil `Enable`; then the result is the
negation of `Enable` with a nil error, and in every other situation
(nil NodeSLO, empty spec, nil threshold block or nil `Enable`,
unsupported feature) the result is disabled together with an error. -/
def featureConfigEnable (nodeSLO : Option NodeSLO) (feature : Feature) : Option Bool :=
  match nodeSLO, feature with
  | some n, .BECPUSuppress | some n, .BEMemoryEvict =>
      match n.Spec.ResourceUsedThresholdWithBE with
      | some t => t.Enable
      | none => none
  | _, _ => none

/-- The spec's description of `isFeatureDisabled` as a function: fail
closed with an error whenever the configuration is not determinable. -/
def isFeatureDisabledSpec (nodeSLOp : Option NodeSLO) (feature : Feature) : Bool × Bool :=
  match featureConfigEnable nodeSLOp feature with
  | some e => (!e, false)
  | none => (true, true)

/-! ## Eviction pipeline

`evictPod` issues `kubeClient.CoreV1().Pods(ns).EvictV1(...)`; the kube
API is an external collaborator, so its outcome per (namespace, name)
is an environment function with three observable results: success,
a not-found error (`errors.IsNotFound`), or any other error.  The side
effects are collected into an `Effects` record: the eviction API calls
issued (by namespace and name), the events recorded on the node
(`eventRecorder.Eventf`, by node name and reason constant), and the
eviction metrics recorded (`metrics.RecordPodEviction`, by reason). -/

/-- Outcome of one `EvictV1` call, as classified by the Go code. -/
inductive EvictApiResult where
  | ok
  | notFound
  | otherErr
deriving DecidableEq, Repr

/-- The kube eviction API environment. -/
structure EvictEnv where
  evictV1 : String → String → EvictApiResult

/-- The event reason constants of the module. -/
inductive EventReason where
  | evictPodSuccess
  | evictPodFail
deriving DecidableEq, Repr

/-- Externally visible side effects of an eviction-pipeline call. -/
structure Effects where
  apiCalls : List (String × String)
  events : List (String × EventReason)
  metrics : List String
deriving DecidableEq, Repr

/-- No side effects. -/
def Effects.empty : Effects := ⟨[], [], []⟩

/-- Effects of a first call followed by those of a second. -/
def Effects.app (a b : Effects) : Effects :=
  ⟨a.apiCalls ++ b.apiCalls, a.events ++ b.events, a.metrics ++ b.metrics⟩

/-- A pod, with the fields the pipeline reads: identity plus the
container names of `pod.Spec.Containers`. -/
structure Container where
  name : String
deriving DecidableEq, Repr

structure Pod where
  Namespace : String
  Name : String
  UID : String
  Containers : List Container
deriving DecidableEq, Repr

/-- A node, identified by name (events are recorded against it). -/
structure Node where
  Name : String
deriving DecidableEq, Repr

/-- `(r *resmanager) evictPod(evictPod, node, reason, message)`:
issues one graceful eviction call; on success records a success event
and an eviction metric and returns true; on a not-found error returns
true with no event and no metric; on any other error records a failure
event and returns false. -/
def evictPod (env : EvictEnv) (evictPodArg : Pod) (node : Node)
    (reason : String) (_message : String) : Bool × Effects :=
  match env.evictV1 evictPodArg.Namespace evictPodArg.Name with
  | .ok =>
      (true, ⟨[(evictPodArg.Namespace, evictPodArg.Name)],
        [(node.Name, .evictPodSuccess)], [reason]⟩)
  | .notFound =>
      (true, ⟨[(evictPodArg.Namespace, evictPodArg.Name)], [], []⟩)
  | .otherErr =>
      (false, ⟨[(evictPodArg.Namespace, evictPodArg.Name)],
        [(node.Name, .evictPodFail)], []⟩)

/-- `(r *resmanager) evictPodIfNotEvicted(evictPod, node, reason, message)`:
returns immediately when the pod UID is already in the dedup cache;
otherwise calls `evictPod` and, when it reports success, inserts the
UID into the dedup cache (`podsEvicted.SetDefault`). -/
def evictPodIfNotEvicted (env : EvictEnv) (r : Resmanager) (evictPodArg : Pod)
    (node : Node) (reason : String) (message : String) : Resmanager × Effects :=
  if evictPodArg.UID ∈ r.podsEvicted then (r, Effects.empty)
  else
    let res := evictPod env evictPodArg node reason message
    if res.1 then ({ r with podsEvicted := evictPodArg.UID :: r.podsEvicted }, res.2)
    else (r, res.2)

/-- `(r *resmanager) evictPodsIfNotEvicted(evictPods, node, reason, message)`:
the per-pod operation applied to each pod of the list in order,
threading the dedup cache and accumulating the effects. -/
def evictPodsIfNotEvicted (env : EvictEnv) (r : Resmanager) (evictPods : List Pod)
    (node : Node) (reason : String) (message : String) : Resmanager × Effects :=
  match evictPods with
  | [] => (r, Effects.empty)
  | p :: rest =>
      let step := evictPodIfNotEvicted env r p node reason message
      let tail := evictPodsIfNotEvicted env step.1 rest node reason message
      (tail.1, Effects.app step.2 tail.2)

/-! ## `killContainers`

The helpers it calls live outside this file:
`util.FindContainerIdAndStatusByName` resolves a container name against
`pod.Status` to a container id and a status pointer (or an error);
`util.ParseContainerId` extracts the runtime type from the status's
full container id (its error is discarded at the call site);
`runtime.GetRuntimeHandler` yields a handler or fails.  All three are
environment functions.  `StopContainer`'s error is only logged and
never consulted by control flow, so the returned value is the list of
container ids that received a stop attempt. -/

/-- The fields of `corev1.ContainerStatus` that `killContainers` reads:
the full container id string and whether `State.Running` is non-nil. -/
structure ContainerStatus where
  ContainerID : String
  Running : Bool
deriving DecidableEq, Repr

/-- Environment for `killContainers`: status lookup by container name
(`none` models a non-nil error; the inner `Option ContainerStatus`
models the returned status pointer), runtime-type parsing, and the
runtime handler registry (`false` models `err != nil || handler == nil`). -/
structure KillEnv where
  findContainerIdAndStatusByName : String → Option (String × Option ContainerStatus)
  parseContainerId : String → String
  getRuntimeHandler : String → Bool

/-- The loop body of `killContainers` over the remaining containers:
a status-lookup error or a nil/non-running status returns from the
whole function; an empty container id or a failed runtime-handler
lookup continues with the next container; otherwise the container
receives a stop attempt and the loop continues. -/
def killContainersLoop (env : KillEnv) : List Container → List String
  | [] => []
  | c :: rest =>
      match env.findContainerIdAndStatusByName c.name with
      | none => []
      | some (containerID, containerStatus) =>
          match containerStatus with
          | none => []
          | some cs =>
              if !cs.Running then []
              else if containerID ≠ "" then
                if env.getRuntimeHandler (env.parseContainerId cs.ContainerID) then
                  containerID :: killContainersLoop env rest
                else
                  killContainersLoop env rest
              else
                killContainersLoop env rest

/-- `killContainers(pod, message)`: iterates over `pod.Spec.Containers`. -/
def killContainers (env : KillEnv) (pod : Pod) (_message : String) : List String :=
  killContainersLoop env pod.Containers

/-! ## Concrete fixtures used by witnesses and counterexamples -/

/-- Eviction API that always reports not-found. -/
def envNotFound : EvictEnv := ⟨fun _ _ => .notFound⟩

/-- Eviction API that always fails with a non-not-found error. -/
def envOtherErr : EvictEnv := ⟨fun _ _ => .otherErr⟩

def podA : Pod := ⟨"default", "pod-a", "uid-a", []⟩

def podB : Pod := ⟨"default", "pod-b", "uid-b", []⟩

def nodeA : Node := ⟨"node-1"⟩

/-- A resmanager fresh at process start: nothing stored, empty cache. -/
def r0 : Resmanager := ⟨none, []⟩

/-- A resmanager whose dedup cache already holds the UID of `podA`. -/
def rEvicted : Resmanager := ⟨none, ["uid-a"]⟩

/-- A concrete merge environment (the theorems about the store hold for
every merge environment; witnesses fix this one). -/
def mergeEnv0 : MergeEnv :=
  { defaultConfig := emptyNodeSLOSpec
    mergeSLOSpecResourceUsedThresholdWithBE := fun _ x => x
    mergeSLOSpecResourceQoSStrategy := fun _ x => x
    mergeNoneResourceQoSIfDisabled := id
    mergeSLOSpecCPUBurstStrategy := fun _ x => x }

def nodeSLO0 : NodeSLO :=
  { typeMeta := ⟨"NodeSLO", "slo.koordinator.sh/v1alpha1"⟩
    objectMeta := ⟨"node-1", "", "slo-uid-0", "7"⟩
    Spec := emptyNodeSLOSpec
    status := ⟨⟩ }

def nodeSLO1 : NodeSLO :=
  { typeMeta := ⟨"NodeSLO", "slo.koordinator.sh/v1alpha1"⟩
    objectMeta := ⟨"node-1", "", "slo-uid-1", "9"⟩
    Spec :=
      { ResourceUsedThresholdWithBE :=
          some ⟨some true, some 65, "cpuset", some 70, some 68⟩
        ResourceQoSStrategy := none
        CPUBurstStrategy := none }
    status := ⟨⟩ }

/-- A resmanager that already stores `nodeSLO0`. -/
def rStored : Resmanager := ⟨some nodeSLO0, []⟩

def containerC1 : Container := ⟨"c1"⟩

def containerC2 : Container := ⟨"c2"⟩

/-- Kill environment where the container-id/status lookup errs for
container c1 but succeeds for c2, whose runtime handler resolves. -/
def envKillCex : KillEnv :=
  { findContainerIdAndStatusByName := fun n =>
      if n = "c2" then some ("id2", some ⟨"handler-ok", true⟩) else none
    parseContainerId := fun s => s
    getRuntimeHandler := fun _ => true }

/-- Kill environment where every lookup succeeds with a running status
but the runtime handler resolves only for the type parsed from c2. -/
def envKillW : KillEnv :=
  { findContainerIdAndStatusByName := fun n =>
      if n = "c1" then some ("id1", some ⟨"handler-bad", true⟩)
      else if n = "c2" then some ("id2", some ⟨"handler-ok", true⟩)
      else none
    parseContainerId := fun s => s
    getRuntimeHandler := fun rt => rt == "handler-ok" }

def podKillBoth : Pod := ⟨"default", "pod-k", "uid-k", [containerC1, containerC2]⟩

def podKillC2 : Pod := ⟨"default", "pod-k", "uid-k", [containerC2]⟩

def podKillNone : Pod := ⟨"default", "pod-k", "uid-k", []⟩

/-! ## Theorems -/

/-- C3: when the pod's UID is already in the dedup cache,
evictPodIfNotEvicted returns with the state unchanged and no side
effect at all: no eviction API call, no event, no metric, no cache
write. -/
theorem evictPodIfNotEvicted_dedup_hit_noop (env : EvictEnv) (r : Resmanager)
    (p : Pod) (node : Node) (reason message : String)
    (h : p.UID ∈ r.podsEvicted) :
    evictPodIfNotEvicted env r p node reason message = (r, Effects.empty) := by
  simp [evictPodIfNotEvicted, h]

theorem evictPodIfNotEvicted_dedup_hit_noop_witness :
    podA.UID ∈ rEvicted.podsEvicted ∧
      evictPodIfNotEvicted envNotFound rEvicted podA nodeA "evict" "msg" =
        (rEvicted, Effects.empty) :=
  ⟨by simp [podA, rEvicted],
   evictPodIfNotEvicted_dedup_hit_noop envNotFound rEvicted podA nodeA "evict" "msg"
     (by simp [podA, rEvicted])⟩

/-- C10: when the graceful eviction call fails with not-found,
evictPod returns true after its single API call, recording no node
event and no eviction metric. -/
theorem evictPod_notFound_frame (env : EvictEnv) (p : Pod) (node : Node)
    (reason message : String)
    (h : env.evictV1 p.Namespace p.Name = .notFound) :
    evictPod env p node reason message =
      (true, ⟨[(p.Namespace, p.Name)], [], []⟩) := by
  simp [evictPod, h]

theorem evictPod_notFound_frame_witness :
    evictPod envNotFound podA nodeA "memoryEvict" "msg" =
      (true, ⟨[(podA.Namespace, podA.Name)], [], []⟩) :=
  evictPod_notFound_frame envNotFound podA nodeA "memoryEvict" "msg" rfl

/-- C4: when the graceful eviction call fails with an error that is not
not-found, evictPod records one evictPodFail event on the node and
returns false, and evictPodIfNotEvicted leaves the dedup cache (and all
of its state) unchanged; the failure is never silent, since the event
is always emitted. -/
theorem evictPod_failure_event_no_dedup (env : EvictEnv) (r : Resmanager)
    (p : Pod) (node : Node) (reason message : String)
    (h1 : p.UID ∉ r.podsEvicted)
    (h2 : env.evictV1 p.Namespace p.Name = .otherErr) :
    evictPod env p node reason message =
      (false, ⟨[(p.Namespace, p.Name)], [(node.Name, .evictPodFail)], []⟩) ∧
    evictPodIfNotEvicted env r p node reason message =
      (r, ⟨[(p.Namespace, p.Name)], [(node.Name, .evictPodFail)], []⟩) := by
  refine ⟨by simp [evictPod, h2], ?_⟩
  simp [evictPodIfNotEvicted, h1, evictPod, h2]

theorem evictPod_failure_event_no_dedup_witness :
    evictPod envOtherErr podA nodeA "evict" "msg" =
      (false, ⟨[(podA.Namespace, podA.Name)], [(nodeA.Name, .evictPodFail)], []⟩) ∧
    evictPodIfNotEvicted envOtherErr r0 podA nodeA "evict" "msg" =
      (r0, ⟨[(podA.Namespace, podA.Name)], [(nodeA.Name, .evictPodFail)], []⟩) :=
  evictPod_failure_event_no_dedup envOtherErr r0 podA nodeA "evict" "msg"
    (by simp [podA, r0]) rfl

/-- C1 (counterexample): for a pod whose eviction fails with not-found,
evictPodIfNotEvicted DOES insert the dedup entry for the pod's UID --
evictPod returns true on that path and the insertion is keyed on that
boolean alone -- refuting the claim that the not-found path skips the
dedup-cache insertion. -/
theorem evictPodIfNotEvicted_notFound_inserts_cex :
    podA.UID ∈
      (evictPodIfNotEvicted envNotFound r0 podA nodeA "evict" "msg").1.podsEvicted ∧
    (evictPodIfNotEvicted envNotFound r0 podA nodeA "evict" "msg").1 ≠ r0 := by
  constructor
  · simp [evictPodIfNotEvicted, evictPod, envNotFound, r0, podA]
  · simp [evictPodIfNotEvicted, evictPod, envNotFound, r0, podA]

/-- C1 (amended): a not-found eviction failure is treated as success
and the dedup entry IS inserted for the pod's UID, exactly as on the
genuinely-successful path (no event and no metric are recorded,
though). -/
theorem evictPodIfNotEvicted_notFound_inserts (env : EvictEnv) (r : Resmanager)
    (p : Pod) (node : Node) (reason message : String)
    (h1 : p.UID ∉ r.podsEvicted)
    (h2 : env.evictV1 p.Namespace p.Name = .notFound) :
    evictPodIfNotEvicted env r p node reason message =
      ({ r with podsEvicted := p.UID :: r.podsEvicted },
        ⟨[(p.Namespace, p.Name)], [], []⟩) := by
  simp [evictPodIfNotEvicted, h1, evictPod, h2]

theorem evictPodIfNotEvicted_notFound_inserts_witness :
    evictPodIfNotEvicted envNotFound r0 podA nodeA "evict" "msg" =
      ({ r0 with podsEvicted := podA.UID :: r0.podsEvicted },
        ⟨[(podA.Namespace, podA.Name)], [], []⟩) :=
  evictPodIfNotEvicted_notFound_inserts envNotFound r0 podA nodeA "evict" "msg"
    (by simp [podA, r0]) rfl

/-- C5: a failed eviction of the first pod of the batch leaves the
dedup cache untouched, so the remaining pods are processed exactly as
they would be without it: a failure on an earlier pod never prevents an
eviction attempt on any later pod. -/
theorem evictPodsIfNotEvicted_failure_independent (env : EvictEnv) (r : Resmanager)
    (p : Pod) (rest : List Pod) (node : Node) (reason message : String)
    (h1 : p.UID ∉ r.podsEvicted)
    (h2 : (evictPod env p node reason message).1 = false) :
    evictPodsIfNotEvicted env r (p :: rest) node reason message =
      ((evictPodsIfNotEvicted env r rest node reason message).1,
        Effects.app (evictPod env p node reason message).2
          (evictPodsIfNotEvicted env r rest node reason message).2) := by
  have hstep : evictPodIfNotEvicted env r p node reason message =
      (r, (evictPod env p node reason message).2) := by
    simp [evictPodIfNotEvicted, h1, h2]
  simp [evictPodsIfNotEvicted, hstep]

theorem evictPodsIfNotEvicted_failure_independent_witness :
    evictPodsIfNotEvicted envOtherErr r0 [podA, podB] nodeA "evict" "msg" =
      ((evictPodsIfNotEvicted envOtherErr r0 [podB] nodeA "evict" "msg").1,
        Effects.app (evictPod envOtherErr podA nodeA "evict" "msg").2
          (evictPodsIfNotEvicted envOtherErr r0 [podB] nodeA "evict" "msg").2) :=
  evictPodsIfNotEvicted_failure_independent envOtherErr r0 podA [podB] nodeA
    "evict" "msg" (by simp [podA, r0]) rfl

/-- C2 (counterexample): in a pod with two containers where the
container-id/status lookup errs for the first container, killContainers
returns immediately, so the second container -- which would receive a
stop attempt if processed -- receives none: a lookup failure on one
container DOES abort processing of the pod's remaining containers. -/
theorem killContainers_find_error_aborts_cex :
    killContainers envKillCex podKillBoth "oom" = [] ∧
    killContainers envKillCex podKillC2 "oom" = ["id2"] := by
  constructor
  · simp [killContainers, podKillBoth, killContainersLoop, envKillCex,
      containerC1, containerC2]
  · simp [killContainers, podKillC2, killContainersLoop, envKillCex,
      containerC1, containerC2]

/-- C2 (amended): a runtime-handler resolution failure on one container
does not abort the pod's remaining containers (the loop continues with
exactly the stop attempts of the rest), and when the handler resolves
the container receives a stop attempt and the loop likewise continues
regardless of the stop call's outcome (which control flow never
consults); a container-id/status resolution failure, by contrast,
returns from the whole function (the counterexample above). -/
theorem killContainers_handler_or_stop_failure_continues
    (env : KillEnv) (p q : Pod) (c : Container) (message : String)
    (cid : String) (cs : ContainerStatus)
    (hpq : p.Containers = c :: q.Containers)
    (hfind : env.findContainerIdAndStatusByName c.name = some (cid, some cs))
    (hrun : cs.Running = true) :
    (env.getRuntimeHandler (env.parseContainerId cs.ContainerID) = false →
      killContainers env p message = killContainers env q message) ∧
    (cid ≠ "" → env.getRuntimeHandler (env.parseContainerId cs.ContainerID) = true →
      killContainers env p message = cid :: killContainers env q message) := by
  constructor
  · intro hh
    by_cases hcid : cid = ""
    · simp [killContainers, hpq, killContainersLoop, hfind, hrun, hcid]
    · simp [killContainers, hpq, killContainersLoop, hfind, hrun, hcid, hh]
  · intro hcid hh
    simp [killContainers, hpq, killContainersLoop, hfind, hrun, hcid, hh]

theorem killContainers_handler_or_stop_failure_continues_witness :
    killContainers envKillW podKillBoth "oom" = killContainers envKillW podKillC2 "oom" ∧
    killContainers envKillW podKillC2 "oom" = "id2" :: killContainers envKillW podKillNone "oom" :=
  ⟨(killContainers_handler_or_stop_failure_continues envKillW podKillBoth podKillC2
      containerC1 "oom" "id1" ⟨"handler-bad", true⟩ rfl rfl rfl).1 rfl,
   (killContainers_handler_or_stop_failure_continues envKillW podKillC2 podKillNone
      containerC2 "oom" "id2" ⟨"handler-ok", true⟩ rfl rfl rfl).2 (by decide) rfl⟩

/-- C6: isFeatureDisabled agrees everywhere with its specification:
whenever the feature configuration cannot be determined (nil NodeSLO,
empty spec, nil threshold block or nil Enable, unsupported feature) it
returns disabled together with a non-nil error, and when the
configuration is determinable it returns the negation of the Enable
flag with a nil error. -/
theorem isFeatureDisabled_eq_spec (nodeSLOp : Option NodeSLO) (f : Feature) :
    isFeatureDisabled nodeSLOp f = isFeatureDisabledSpec nodeSLOp f := by
  cases nodeSLOp with
  | none => cases f <;> rfl
  | some n =>
      by_cases hs : n.Spec = emptyNodeSLOSpec
      · have ht : n.Spec.ResourceUsedThresholdWithBE = none := by
          rw [hs]; rfl
        cases f <;>
          simp [isFeatureDisabled, isFeatureDisabledSpec, featureConfigEnable, hs, ht,
            emptyNodeSLOSpec]
      · cases f <;>
          cases htt : n.Spec.ResourceUsedThresholdWithBE <;>
          simp [isFeatureDisabled, isFeatureDisabledSpec, featureConfigEnable, hs, htt] <;>
          (rename_i t; cases t.Enable <;> rfl)

/-- C7: hasSynced returns true exactly when a NodeSLO has been stored
and its CPU/memory threshold block is non-nil. -/
theorem hasSynced_iff (r : Resmanager) :
    hasSynced r = true ↔
      ∃ n t, r.nodeSLO = some n ∧
        n.Spec.ResourceUsedThresholdWithBE = some t := by
  cases h : r.nodeSLO with
  | none => simp [hasSynced, h]
  | some n => simp [hasSynced, h, Option.isSome_iff_exists]

/-- C9: updateNodeSLOSpec panics (dereferences the nil stored pointer)
exactly when no create has yet populated the store; with a stored
NodeSLO present the operation always completes. -/
theorem updateNodeSLOSpec_nil_store_panics (env : MergeEnv) (r : Resmanager)
    (incoming : NodeSLO) :
    updateNodeSLOSpec env r incoming = none ↔ r.nodeSLO = none := by
  cases h : r.nodeSLO <;> simp [updateNodeSLOSpec, h]

/-- C8: with a NodeSLO stored, updateNodeSLOSpec rewrites only the
stored object's Spec (then merged with the defaults): its TypeMeta,
ObjectMeta and Status are those of the previously stored object, and
the rest of the resmanager state (the dedup cache included) is
untouched, for every behavior of the merge helpers. -/
theorem updateNodeSLOSpec_frame (env : MergeEnv) (r : Resmanager)
    (incoming : NodeSLO) (st : NodeSLO) (h : r.nodeSLO = some st) :
    ∃ st', updateNodeSLOSpec env r incoming =
        some { r with nodeSLO := some st' } ∧
      st'.typeMeta = st.typeMeta ∧ st'.objectMeta = st.objectMeta ∧
      st'.status = st.status := by
  obtain ⟨slo, pe⟩ := r
  have h' : slo = some st := h
  subst h'
  exact ⟨{ st with Spec := mergeSpecFields env incoming.Spec incoming.Spec },
    rfl, rfl, rfl, rfl⟩

theorem updateNodeSLOSpec_frame_witness :
    ∃ st', updateNodeSLOSpec mergeEnv0 rStored nodeSLO1 =
        some { rStored with nodeSLO := some st' } ∧
      st'.typeMeta = nodeSLO0.typeMeta ∧ st'.objectMeta = nodeSLO0.objectMeta ∧
      st'.status = nodeSLO0.status :=
  updateNodeSLOSpec_frame mergeEnv0 rStored nodeSLO1 nodeSLO0 rfl
